import Mathlib

/-!
Verification development for the opennode-generator task-orchestration API.

The definitions below are a shallow embedding of the two source files
`src/api/main.py` and `src/api/routers/generate.py`:

* Python dictionaries keyed by task id (`generation_tasks`, `analysis_tasks`,
  `publish_tasks` in `main.py`, and `generation_tasks` in
  `routers/generate.py`) are modelled as association lists
  `List (String × _)`; lookup, membership and in-place mutation mirror the
  dict operations used by the source (`d[k]`, `k in d`, `d[k] = v`,
  `d[k].update(...)`, `del d[k]`).
* Timestamps (`datetime.utcnow()`) are modelled as natural numbers supplied
  by the caller as a `now` parameter.
* Calls into external collaborators (the spawned subprocess, the AI service,
  the result cache backend) are modelled by explicit environment values that
  say whether the call succeeded, and with which payload, or raised an
  exception with a given description.
* A Python `try/except` body is modelled with `Except String`, the error
  carrying `str(e)`; an exception that escapes a background task uncaught is
  reported in an `uncaught : Option String` field of the run result.
-/

namespace OpenNodeForge

/-! ## Model: the shallow embedding -/

/-- Result payloads (Python `Dict[str, Any]` values produced by collaborators)
are modelled as association lists of string keys and values; Python truthiness
of such a dict is emptiness of the list. -/
abbrev Payload := List (String × String)

/-- The structured result dict returned by `run_node_command`. -/
structure SubprocessResult where
  success : Bool
  stdout : String
  stderr : String
  returncode : Int
deriving Repr, DecidableEq

/-- What the operating system did with the attempted
`asyncio.create_subprocess_exec` call: either the process was launched and ran
to completion with an exit code and captured output streams, or launching
raised an exception whose description (`str(e)`) is the given string. -/
inductive LaunchOutcome where
  | launched (returncode : Int) (stdout stderr : String)
  | launchFailed (exnMsg : String)
deriving Repr, DecidableEq

/-- Embedding of `run_node_command` (main.py lines 194-218): on a successful
launch it returns the captured streams with `success := returncode == 0`; on
an exception it returns the sentinel record with `returncode := -1` and the
exception description as `stderr`. The command list and working directory do
not influence the shape of the result, so they are not parameters here; the
`LaunchOutcome` stands for the behaviour of the launched command. -/
def run_node_command (o : LaunchOutcome) : SubprocessResult :=
  match o with
  | .launched rc out err =>
      { success := rc = 0, stdout := out, stderr := err, returncode := rc }
  | .launchFailed e =>
      { success := false, stdout := "", stderr := e, returncode := -1 }

def lookupRec {α : Type} (ts : List (String × α)) (id : String) : Option α :=
  match ts with
  | [] => none
  | (k, v) :: rest => if k = id then some v else lookupRec rest id

def containsRec {α : Type} (ts : List (String × α)) (id : String) : Bool :=
  match ts with
  | [] => false
  | (k, _) :: rest => if k = id then true else containsRec rest id

def setRec {α : Type} (ts : List (String × α)) (id : String) (f : α → α) :
    List (String × α) :=
  match ts with
  | [] => []
  | (k, v) :: rest =>
      if k = id then (k, f v) :: rest else (k, v) :: setRec rest id f

/-- Embedding of the `GenerationStatus` pydantic model
(routers/generate.py lines 21-30). -/
structure GenerationStatus where
  task_id : String
  status : String
  progress : Int
  stage : String
  message : Option String
  result : Option Payload
  error : Option String
  created_at : Nat
  updated_at : Nat
deriving Repr, DecidableEq

/-- The router's in-memory task store `generation_tasks` (generate.py line 33). -/
abbrev GenTasks := List (String × GenerationStatus)

/-- Embedding of `update_task_status` (generate.py lines 159-180): when the id
is present, overwrite the status, progress, stage, message, result and error
fields and refresh `updated_at`; when the id is absent, do nothing. -/
def update_task_status (ts : GenTasks) (now : Nat) (task_id status : String)
    (progress : Int) (stage : String) (message : Option String)
    (result : Option Payload) (error : Option String) : GenTasks :=
  if containsRec ts task_id then
    setRec ts task_id (fun t =>
      { t with
        status := status, progress := progress, stage := stage,
        message := message, result := result, error := error,
        updated_at := now })
  else ts

/-- A cache entry: key, stored payload, absolute expiry instant. -/
abbrev Cache := List (String × Payload × Nat)

/-- Modelled from the spec: `src/api/utils/cache.py` is not in the source
tree; section 4.4 gives the Result Cache contract `set(key, value, ttl)`.
Setting stores the value under the key with expiry `now + ttl`; a newer entry
for a key shadows any older one. -/
def cacheSet (c : Cache) (now : Nat) (key : String) (v : Payload) (ttl : Nat) :
    Cache :=
  (key, v, now + ttl) :: c

/-- Modelled from the spec: `src/api/utils/cache.py` is not in the source
tree; section 4.4 gives the Result Cache contract
`get(key) -> value | not-found` with the proviso that expired entries are
never returned. Lookup finds the most recent entry for the key and returns
its value only while `now` is before the expiry instant. -/
def cacheGet (c : Cache) (now : Nat) (key : String) : Option Payload :=
  match c with
  | [] => none
  | (k, v, exp) :: rest =>
      if k = key then (if now < exp then some v else none)
      else cacheGet rest now key

/-- The most recent raw entry for a key, ignoring expiry (used to state that
an expired entry is never returned). -/
def cacheEntry (c : Cache) (key : String) : Option (Payload × Nat) :=
  match c with
  | [] => none
  | (k, v, exp) :: rest =>
      if k = key then some (v, exp) else cacheEntry rest key

/-- The record seeded by the router's `generate_package` endpoint at
acceptance time (generate.py lines 48-55): status `pending`, progress 0,
stage `initialization`. -/
def seedTask (task_id : String) (now : Nat) : GenerationStatus :=
  { task_id := task_id, status := "pending", progress := 0,
    stage := "initialization", message := none, result := none, error := none,
    created_at := now, updated_at := now }

/-- Environment for one run of `generate_package_async`: the outcome of the
two service-constructor calls and of each awaited external collaborator
call. `Except.error e` means the call raised an exception with description
`e`. `generator` and `ai_service` are the `PackageGeneratorService()` and
`AIService()` constructor calls of generate.py lines 79-80 — these execute
BEFORE the `try` block, so their exceptions are not caught by the run's
handler. The AI service payloads themselves do not influence the
orchestration, so successful calls carry no data except the final package
payload from `create_package`, and `cache_set` reports only whether the
result-cache write raised. -/
structure GenEnv where
  generator : Except String Unit
  ai_service : Except String Unit
  analyze_idea : Except String Unit
  generate_source_code : Except String Unit
  generate_tests : Except String Unit
  create_package : Except String Payload
  cache_set : Option String
deriving Repr

/-- Result of one run of `generate_package_async`: the stores observed after
each `update_task_status` call in order (`hist`), the final cache, and the
description of an exception that escaped the background task uncaught, if
any. -/
structure RouterRun where
  hist : List GenTasks
  cache : Cache
  uncaught : Option String
deriving Repr, DecidableEq

/-- Embedding of the `except` clause of `generate_package_async`
(generate.py lines 150-157): it reads `generation_tasks[task_id].progress`
and `.stage` from the store — a read that raises `KeyError` when the id is
absent — and issues a `failed` update preserving them. -/
def genFail (now : Nat) (task_id e : String) (ts : GenTasks)
    (hist : List GenTasks) (c : Cache) : RouterRun :=
  match lookupRec ts task_id with
  | some t =>
      { hist := hist ++ [update_task_status ts now task_id "failed" t.progress
          t.stage none none (some e)],
        cache := c, uncaught := none }
  | none => { hist := hist, cache := c, uncaught := some "KeyError" }

/-- Embedding of `generate_package_async` (generate.py lines 72-157): the
`PackageGeneratorService()` and `AIService()` constructor calls (lines
79-80, before the `try` block — an exception raised there escapes the run
uncaught and leaves the store untouched), then the fixed sequence of
progress updates interleaved with the awaited collaborator calls, the
`completed` update with the final result, the result-cache write, and the
catch-all `except` clause mapping any exception raised inside the `try` to
a `failed` update. -/
def generate_package_async (env : GenEnv) (enable_testing : Bool) (now : Nat)
    (task_id : String) (ts0 : GenTasks) (c0 : Cache) : RouterRun :=
  match env.generator with
  | .error e => { hist := [], cache := c0, uncaught := some e }
  | .ok _ =>
  match env.ai_service with
  | .error e => { hist := [], cache := c0, uncaught := some e }
  | .ok _ =>
  let ts1 := update_task_status ts0 now task_id "in_progress" 10
      "analyzing_requirements" none none none
  match env.analyze_idea with
  | .error e => genFail now task_id e ts1 [ts1] c0
  | .ok _ =>
    let ts2 := update_task_status ts1 now task_id "in_progress" 30
        "generating_structure" none none none
    let ts3 := update_task_status ts2 now task_id "in_progress" 50
        "generating_code" none none none
    match env.generate_source_code with
    | .error e => genFail now task_id e ts3 [ts1, ts2, ts3] c0
    | .ok _ =>
      let ts4 := update_task_status ts3 now task_id "in_progress" 70
          "generating_tests" none none none
      match (if enable_testing then env.generate_tests else Except.ok ()) with
      | .error e => genFail now task_id e ts4 [ts1, ts2, ts3, ts4] c0
      | .ok _ =>
        let ts5 := update_task_status ts4 now task_id "in_progress" 90
            "finalizing_package" none none none
        match env.create_package with
        | .error e => genFail now task_id e ts5 [ts1, ts2, ts3, ts4, ts5] c0
        | .ok result =>
          let ts6 := update_task_status ts5 now task_id "completed" 100 "done"
              none (some result) none
          match env.cache_set with
          | some e => genFail now task_id e ts6 [ts1, ts2, ts3, ts4, ts5, ts6] c0
          | none =>
              { hist := [ts1, ts2, ts3, ts4, ts5, ts6],
                cache := cacheSet c0 now (String.append "package:" task_id)
                  result 3600,
                uncaught := none }

/-- The (status, progress, stage) snapshots of one task across a list of
store states: what a sequence of polls of that task would observe. -/
def recTrace (hist : List GenTasks) (id : String) :
    List (String × Int × String) :=
  hist.filterMap (fun ts =>
    (lookupRec ts id).map (fun t => (t.status, t.progress, t.stage)))

/-- The final store of a router run (the store after the last update; the
initial store if no update was applied). -/
def finalTasks (r : RouterRun) (ts0 : GenTasks) : GenTasks :=
  r.hist.getLastD ts0

structure MainTask where
  id : String
  status : String
  started_at : Nat
  command : List String
  package_path : Option String
  analysis_type : Option String
  output_dir : Option String
  completed_at : Option Nat
  result : Option SubprocessResult
  files : Option (List String)
  error : Option String
deriving Repr, DecidableEq

abbrev MainTasks := List (String × MainTask)

/-- The generation-task record seeded by `generate_package`
(main.py lines 329-335): status `running` from the start, no terminal
fields. -/
def mainSeed (generation_id : String) (now : Nat) (cmd : List String) :
    MainTask :=
  { id := generation_id, status := "running", started_at := now,
    command := cmd, package_path := none, analysis_type := none,
    output_dir := none, completed_at := none, result := none, files := none,
    error := none }

/-- Environment for one run of `run_generation_task`: the launch outcome of
the subprocess, whether the output directory exists afterwards, the file
paths `os.walk` would enumerate, and an exception description if the
file-collection block raises. -/
structure RunEnv where
  launch : LaunchOutcome
  outDirExists : Bool
  files : List String
  walkExn : Option String
deriving Repr

/-- Result of one run of `run_generation_task`: the stores observed after
each mutation of the task's dict, in order, plus the description of an
exception escaping the background task uncaught, if any. -/
structure MainRun where
  hist : List MainTasks
  uncaught : Option String
deriving Repr, DecidableEq

/-- Embedding of `run_generation_task` (main.py lines 358-386). The first
`dict.update` stores status `completed`/`failed` (from the subprocess success
flag), `completed_at`, the whole subprocess result dict under `result`, and
`output_dir`; on success the collected file list is then stored under
`files`. Any exception raised inside the `try` block (modelled: a failure of
the file-collection block) is caught and converted into an update to status
`failed` with the description under `error` — note this second update does
not remove the already-stored `result` key. A `KeyError` on an absent id
would escape uncaught because the `except` clause itself indexes the dict. -/
def run_generation_task (env : RunEnv) (now : Nat)
    (generation_id output_dir : String) (ts0 : MainTasks) : MainRun :=
  let result := run_node_command env.launch
  match lookupRec ts0 generation_id with
  | none => { hist := [], uncaught := some "KeyError" }
  | some _ =>
    let ts1 := setRec ts0 generation_id (fun t =>
      { t with
        status := if result.success then "completed" else "failed",
        completed_at := some now, result := some result,
        output_dir := some output_dir })
    if result.success then
      match env.walkExn with
      | some e =>
          let ts2 := setRec ts1 generation_id (fun t =>
            { t with
              status := "failed", completed_at := some now,
              error := some e })
          { hist := [ts1, ts2], uncaught := none }
      | none =>
          let fs := if env.outDirExists then env.files else []
          let ts2 := setRec ts1 generation_id (fun t => { t with files := some fs })
          { hist := [ts1, ts2], uncaught := none }
    else { hist := [ts1], uncaught := none }

/-- The status snapshots of one task of a `main.py` store across a list of
store states. -/
def mainStatusTrace (hist : List MainTasks) (id : String) : List String :=
  hist.filterMap (fun ts => (lookupRec ts id).map (fun t => t.status))

/-- The final store of a `main.py` background run. -/
def mainFinalTasks (r : MainRun) (ts0 : MainTasks) : MainTasks :=
  r.hist.getLastD ts0

/-- The removal condition of the sweep: terminal status and
`task.get("completed_at", datetime.utcnow()) < cutoff_time`. A record without
`completed_at` defaults to `now`, which is never before the cutoff. -/
def shouldRemove (cutoff now : Nat) (t : MainTask) : Bool :=
  decide (t.status = "completed" ∨ t.status = "failed") &&
    decide (t.completed_at.getD now < cutoff)

/-- One family store after the sweep: the source collects the ids matching
`shouldRemove` into `to_remove` and deletes each, which keeps exactly the
entries not matching. -/
def sweepStore (cutoff now : Nat) (ts : MainTasks) : MainTasks :=
  ts.filter (fun kv => ! shouldRemove cutoff now kv.2)

/-- The response body of the cleanup endpoint: per-family counts removed
(`initial - final`) and remaining (`final`). -/
structure CleanupReport where
  cleaned_generations : Nat
  cleaned_analyses : Nat
  cleaned_publishes : Nat
  remaining_generations : Nat
  remaining_analyses : Nat
  remaining_publishes : Nat
deriving Repr, DecidableEq

/-- Embedding of `cleanup_tasks` (main.py lines 791-844): cutoff is one hour
before now, each of the three family stores is swept with the same condition,
and the report carries the count differences. -/
def cleanup_tasks (now : Nat) (g a p : MainTasks) :
    (MainTasks × MainTasks × MainTasks) × CleanupReport :=
  let cutoff := now - 3600
  let g2 := sweepStore cutoff now g
  let a2 := sweepStore cutoff now a
  let p2 := sweepStore cutoff now p
  ((g2, a2, p2),
    { cleaned_generations := g.length - g2.length,
      cleaned_analyses := a.length - a2.length,
      cleaned_publishes := p.length - p2.length,
      remaining_generations := g2.length,
      remaining_analyses := a2.length,
      remaining_publishes := p2.length })

/-- Outcome of a synchronous endpoint call: a successful response body, or an
HTTP error response with a status code and detail string. -/
inductive ApiOutcome (α : Type) where
  | ok (a : α)
  | httpError (status : Nat) (detail : String)
deriving Repr, DecidableEq

/-- Starlette renders `str(HTTPException(code, detail))` as the decimal code,
a colon and a space, then the detail text; this is the text the blanket
`except Exception` clause sees when it catches the re-raised validation
error. -/
def httpExnStr (status : Nat) (detail : String) : String :=
  String.append (String.append (toString status) ": ") detail

/-- Embedding of the synchronous part of `analyze_package`
(main.py lines 406-461). The path-existence check raises
`HTTPException(400, "Package path does not exist")` inside the `try` block;
because `HTTPException` is an `Exception` subclass, the blanket
`except Exception` clause catches it and re-raises
`HTTPException(500, "Analysis failed: " + str(e))`, so the client observes a
500-class response. When the path exists, a task record with status
`running` is inserted and the background analysis is scheduled (the returned
Bool). -/
def analyze_package (pathExists : Bool) (analysis_id : String) (now : Nat)
    (node_path cli_path packagePath analysisType : String)
    (includeRecommendations : Bool) (ts : MainTasks) :
    ApiOutcome String × MainTasks × Bool :=
  if pathExists then
    let cmd := [node_path, cli_path, "analyze", packagePath, "--type",
        analysisType, "--json"] ++
      (if includeRecommendations then ["--recommendations"] else [])
    let newTask : MainTask :=
      { id := analysis_id, status := "running", started_at := now,
        command := cmd, package_path := some packagePath,
        analysis_type := some analysisType, output_dir := none,
        completed_at := none, result := none, files := none, error := none }
    (.ok analysis_id, (analysis_id, newTask) :: ts, true)
  else
    (.httpError 500
      (String.append "Analysis failed: "
        (httpExnStr 400 "Package path does not exist")),
      ts, false)

/-- Outcome of the router status endpoint: a `GenerationStatus` body or the
404 response. -/
inductive StatusResponse where
  | ok (st : GenerationStatus)
  | notFound
deriving Repr, DecidableEq

/-- Embedding of the router's `get_generation_status`
(generate.py lines 182-202): a store hit returns the record; on a miss the
result cache is consulted under key `package:{task_id}` and — because the
source tests the cached value with Python truthiness (`if cached_result:`) —
a non-empty cached payload is returned as a synthetic `completed` record
while an empty payload falls through to the 404. -/
def get_generation_status (now : Nat) (ts : GenTasks) (c : Cache)
    (task_id : String) : StatusResponse :=
  match lookupRec ts task_id with
  | some t => .ok t
  | none =>
      match cacheGet c now (String.append "package:" task_id) with
      | some v =>
          if v = [] then .notFound
          else .ok
            { task_id := task_id, status := "completed", progress := 100,
              stage := "done", message := none, result := some v,
              error := none, created_at := now, updated_at := now }
      | none => .notFound

/-- The (status, progress, stage) snapshots a router run writes, as a
function of the constructor and collaborator outcomes alone: empty when a
service constructor raises (the run writes nothing), otherwise the literal
watermarks of `generate_package_async`, each failure branch repeating the
progress and stage reached so far. -/
def expectedTrace (env : GenEnv) (enable_testing : Bool) :
    List (String × Int × String) :=
  let u1 : String × Int × String := ("in_progress", 10, "analyzing_requirements")
  let u2 : String × Int × String := ("in_progress", 30, "generating_structure")
  let u3 : String × Int × String := ("in_progress", 50, "generating_code")
  let u4 : String × Int × String := ("in_progress", 70, "generating_tests")
  let u5 : String × Int × String := ("in_progress", 90, "finalizing_package")
  let u6 : String × Int × String := ("completed", 100, "done")
  match env.generator with
  | .error _ => []
  | .ok _ =>
  match env.ai_service with
  | .error _ => []
  | .ok _ =>
  match env.analyze_idea with
  | .error _ => [u1, ("failed", 10, "analyzing_requirements")]
  | .ok _ =>
    match env.generate_source_code with
    | .error _ => [u1, u2, u3, ("failed", 50, "generating_code")]
    | .ok _ =>
      match (if enable_testing then env.generate_tests else Except.ok ()) with
      | .error _ => [u1, u2, u3, u4, ("failed", 70, "generating_tests")]
      | .ok _ =>
        match env.create_package with
        | .error _ => [u1, u2, u3, u4, u5, ("failed", 90, "finalizing_package")]
        | .ok _ =>
          match env.cache_set with
          | some _ => [u1, u2, u3, u4, u5, u6, ("failed", 100, "done")]
          | none => [u1, u2, u3, u4, u5, u6]

/-- One allowed status transition of the router's task records: `pending` and
`in_progress` advance to `in_progress`; `in_progress` closes to `completed`
or `failed`; `completed` moves to `failed` (the post-completion cache-write
failure path). -/
def routerStep (a b : String) : Bool :=
  (decide (a = "pending") || decide (a = "in_progress")) &&
      decide (b = "in_progress") ||
    decide (a = "in_progress") &&
      (decide (b = "completed") || decide (b = "failed")) ||
    decide (a = "completed") && decide (b = "failed")

/-- One allowed status transition of main.py's generation records: `running`
closes to `completed` or `failed`; `completed` is re-written as `completed`
(the file-list update) or moves to `failed` (the file-collection failure
path). -/
def mainStep (a b : String) : Bool :=
  decide (a = "running") && (decide (b = "completed") || decide (b = "failed")) ||
    decide (a = "completed") &&
      (decide (b = "completed") || decide (b = "failed"))

/-- A terminal status is never followed by a non-terminal one. -/
def noRegress (a b : String) : Bool :=
  !(decide (a = "completed") || decide (a = "failed")) ||
    (decide (b = "completed") || decide (b = "failed"))

/-- The status snapshots a `run_generation_task` run writes, as a function of
the run environment alone. -/
def expectedMainStatuses (renv : RunEnv) : List String :=
  match renv.launch with
  | .launchFailed _ => ["failed"]
  | .launched rc _ _ =>
      if rc = 0 then
        match renv.walkExn with
        | some _ => ["completed", "failed"]
        | none => ["completed", "completed"]
      else ["failed"]

/-! ## Lemmas and claim theorems -/

theorem containsRec_eq_isSome {α : Type} (ts : List (String × α)) (id : String) :
    containsRec ts id = (lookupRec ts id).isSome := by
  induction ts with
  | nil => rfl
  | cons hd tl ih =>
      obtain ⟨k, v⟩ := hd
      by_cases h : k = id <;> simp [containsRec, lookupRec, h, ih]

theorem lookupRec_setRec_self {α : Type} (ts : List (String × α)) (id : String)
    (f : α → α) :
    lookupRec (setRec ts id f) id = (lookupRec ts id).map f := by
  induction ts with
  | nil => rfl
  | cons hd tl ih =>
      obtain ⟨k, v⟩ := hd
      by_cases h : k = id <;> simp [setRec, lookupRec, h, ih]

theorem lookupRec_setRec_other {α : Type} (ts : List (String × α))
    (id j : String) (f : α → α) (hne : j ≠ id) :
    lookupRec (setRec ts id f) j = lookupRec ts j := by
  induction ts with
  | nil => rfl
  | cons hd tl ih =>
      obtain ⟨k, v⟩ := hd
      by_cases hk : k = id
      · subst hk
        simp [setRec, lookupRec, Ne.symm hne]
      · by_cases hj : k = j <;> simp [setRec, lookupRec, hk, hj, ih, hne]

theorem lookupRec_update_task_status (ts : GenTasks) (now : Nat)
    (task_id status : String) (progress : Int) (stage : String)
    (message : Option String) (result : Option Payload) (error : Option String)
    (t : GenerationStatus) (h : lookupRec ts task_id = some t) :
    lookupRec (update_task_status ts now task_id status progress stage message result error) task_id =
      some { t with
        status := status, progress := progress, stage := stage,
        message := message, result := result, error := error,
        updated_at := now } := by
  unfold update_task_status
  rw [containsRec_eq_isSome, h]
  simp [lookupRec_setRec_self, h]

/-- C2: the subprocess runner never raises; a launch failure yields
`success = false`, `returncode = -1`, empty stdout and the failure description
as stderr (non-empty whenever the description is); a launched process yields
`success = true` iff the exit code is 0, with stdout and stderr captured
verbatim. -/
theorem run_node_command_contract (rc : Int) (out err e : String) :
    run_node_command (.launchFailed e) =
      { success := false, stdout := "", stderr := e, returncode := -1 } ∧
    (e ≠ "" → (run_node_command (.launchFailed e)).stderr ≠ "") ∧
    ((run_node_command (.launched rc out err)).success = true ↔ rc = 0) ∧
    (run_node_command (.launched rc out err)).stdout = out ∧
    (run_node_command (.launched rc out err)).stderr = err ∧
    (run_node_command (.launched rc out err)).returncode = rc := by
  refine ⟨rfl, fun h => h, ?_, rfl, rfl, rfl⟩
  simp [run_node_command]

/-- Witness for `run_node_command_contract` at a concrete failing launch and a
concrete non-zero exit. -/
theorem run_node_command_contract_witness :
    run_node_command (.launchFailed "No such file or directory") =
      { success := false, stdout := "", stderr := "No such file or directory",
        returncode := -1 } ∧
    (run_node_command (.launchFailed "No such file or directory")).stderr ≠ "" ∧
    (run_node_command (.launched 1 "" "boom")).success = false := by
  have h := run_node_command_contract 1 "" "boom" "No such file or directory"
  refine ⟨h.1, h.2.1 (by decide), ?_⟩
  have h3 := h.2.2.1
  simp only [run_node_command] at h3 ⊢
  decide

/-- C10: a status update addressed to a task id that is not in the router's
store returns normally and leaves the store completely unchanged. -/
theorem update_task_status_absent_id_noop (ts : GenTasks) (now : Nat)
    (task_id status : String) (progress : Int) (stage : String)
    (message : Option String) (result : Option Payload)
    (error : Option String) (h : lookupRec ts task_id = none) :
    update_task_status ts now task_id status progress stage message result error = ts := by
  unfold update_task_status
  rw [containsRec_eq_isSome, h]
  rfl

/-- Witness for `update_task_status_absent_id_noop`: updating an unknown id in
a concrete one-task store changes nothing. -/
theorem update_task_status_absent_id_noop_witness :
    update_task_status
      [("t1", ⟨"t1", "pending", 0, "initialization", none, none, none, 0, 0⟩)]
      5 "t2" "failed" 50 "generating_code" none none (some "boom") =
    [("t1", ⟨"t1", "pending", 0, "initialization", none, none, none, 0, 0⟩)] :=
  update_task_status_absent_id_noop _ 5 "t2" "failed" 50 "generating_code"
    none none (some "boom") (by decide)

theorem cacheGet_of_expired (c : Cache) (now : Nat) (key : String)
    (v : Payload) (exp : Nat) (h : cacheEntry c key = some (v, exp))
    (hexp : ¬ now < exp) : cacheGet c now key = none := by
  induction c with
  | nil => simp [cacheEntry] at h
  | cons hd tl ih =>
      obtain ⟨k, w, e⟩ := hd
      by_cases hk : k = key
      · simp [cacheEntry, hk] at h
        simp [cacheGet, hk, h.2 ▸ hexp]
      · simp [cacheEntry, hk] at h
        simp [cacheGet, hk, ih h]

theorem length_filter_not_add {α : Type} (p : α → Bool) (l : List α) :
    (l.filter (fun x => ! p x)).length + (l.filter p).length = l.length := by
  induction l with
  | nil => rfl
  | cons hd tl ih => by_cases h : p hd <;> simp [List.filter_cons, h] <;> omega

theorem shouldRemove_iff (cutoff now : Nat) (hc : cutoff ≤ now)
    (t : MainTask) :
    shouldRemove cutoff now t = true ↔
      ((t.status = "completed" ∨ t.status = "failed") ∧
        ∃ c, t.completed_at = some c ∧ c < cutoff) := by
  unfold shouldRemove
  simp only [Bool.and_eq_true, decide_eq_true_eq]
  constructor
  · rintro ⟨h1, h2⟩
    refine ⟨h1, ?_⟩
    cases hca : t.completed_at with
    | none => rw [hca] at h2; simp [Option.getD] at h2; omega
    | some c =>
        rw [hca] at h2
        exact ⟨c, rfl, h2⟩
  · rintro ⟨h1, c, hc2, h3⟩
    rw [hc2]
    exact ⟨h1, h3⟩

theorem sweepStore_mem (cutoff now : Nat) (hc : cutoff ≤ now)
    (ts : MainTasks) (kv : String × MainTask) :
    kv ∈ sweepStore cutoff now ts ↔
      kv ∈ ts ∧ ¬ ((kv.2.status = "completed" ∨ kv.2.status = "failed") ∧
        ∃ c, kv.2.completed_at = some c ∧ c < cutoff) := by
  rw [sweepStore, List.mem_filter]
  simp only [Bool.not_eq_true', ← shouldRemove_iff cutoff now hc kv.2,
    Bool.not_eq_true]

theorem sweepStore_idem (cutoff now : Nat) (ts : MainTasks) :
    sweepStore cutoff now (sweepStore cutoff now ts) =
      sweepStore cutoff now ts := by
  simp [sweepStore, List.filter_filter]

theorem sweepStore_length (cutoff now : Nat) (ts : MainTasks) :
    ts.length - (sweepStore cutoff now ts).length =
      (ts.filter (fun kv => shouldRemove cutoff now kv.2)).length := by
  have h := length_filter_not_add (fun kv => shouldRemove cutoff now kv.2) ts
  unfold sweepStore
  omega

/-- C5: the cleanup sweep removes, in each of the three family stores,
exactly the records with a terminal status whose `completed_at` lies before
the one-hour cutoff, leaving every other record in place (each swept store is
a sublist of the original); the reported per-family `cleaned` count equals
the number of records matching the removal condition; and a second sweep at
the same instant removes nothing and reports zero cleaned. -/
theorem cleanup_tasks_spec (now : Nat) (g a p : MainTasks) :
    (∀ kv : String × MainTask,
      (kv ∈ (cleanup_tasks now g a p).1.1 ↔
        kv ∈ g ∧ ¬ ((kv.2.status = "completed" ∨ kv.2.status = "failed") ∧
          ∃ c, kv.2.completed_at = some c ∧ c < now - 3600)) ∧
      (kv ∈ (cleanup_tasks now g a p).1.2.1 ↔
        kv ∈ a ∧ ¬ ((kv.2.status = "completed" ∨ kv.2.status = "failed") ∧
          ∃ c, kv.2.completed_at = some c ∧ c < now - 3600)) ∧
      (kv ∈ (cleanup_tasks now g a p).1.2.2 ↔
        kv ∈ p ∧ ¬ ((kv.2.status = "completed" ∨ kv.2.status = "failed") ∧
          ∃ c, kv.2.completed_at = some c ∧ c < now - 3600))) ∧
    List.Sublist (cleanup_tasks now g a p).1.1 g ∧
    List.Sublist (cleanup_tasks now g a p).1.2.1 a ∧
    List.Sublist (cleanup_tasks now g a p).1.2.2 p ∧
    (cleanup_tasks now g a p).2.cleaned_generations =
      (g.filter (fun kv => shouldRemove (now - 3600) now kv.2)).length ∧
    (cleanup_tasks now g a p).2.cleaned_analyses =
      (a.filter (fun kv => shouldRemove (now - 3600) now kv.2)).length ∧
    (cleanup_tasks now g a p).2.cleaned_publishes =
      (p.filter (fun kv => shouldRemove (now - 3600) now kv.2)).length ∧
    (cleanup_tasks now (cleanup_tasks now g a p).1.1
        (cleanup_tasks now g a p).1.2.1 (cleanup_tasks now g a p).1.2.2).1 =
      (cleanup_tasks now g a p).1 ∧
    (cleanup_tasks now (cleanup_tasks now g a p).1.1
        (cleanup_tasks now g a p).1.2.1
        (cleanup_tasks now g a p).1.2.2).2.cleaned_generations = 0 ∧
    (cleanup_tasks now (cleanup_tasks now g a p).1.1
        (cleanup_tasks now g a p).1.2.1
        (cleanup_tasks now g a p).1.2.2).2.cleaned_analyses = 0 ∧
    (cleanup_tasks now (cleanup_tasks now g a p).1.1
        (cleanup_tasks now g a p).1.2.1
        (cleanup_tasks now g a p).1.2.2).2.cleaned_publishes = 0 := by
  have hc : now - 3600 ≤ now := Nat.sub_le now 3600
  refine ⟨fun kv => ⟨?_, ?_, ?_⟩, ?_, ?_, ?_, ?_, ?_, ?_, ?_, ?_, ?_, ?_⟩
  · exact sweepStore_mem (now - 3600) now hc g kv
  · exact sweepStore_mem (now - 3600) now hc a kv
  · exact sweepStore_mem (now - 3600) now hc p kv
  · exact List.filter_sublist g
  · exact List.filter_sublist a
  · exact List.filter_sublist p
  · exact sweepStore_length (now - 3600) now g
  · exact sweepStore_length (now - 3600) now a
  · exact sweepStore_length (now - 3600) now p
  all_goals simp [cleanup_tasks, sweepStore_idem]

/-- C9: for any analysis request whose packagePath does not exist, no task
record is created (the analysis store is returned unchanged and nothing is
scheduled), but the synchronous response the client observes carries status
code 500, not the 400/404-class validation response the explicit
`HTTPException(400)` raise intended: the blanket `except Exception` clause of
`analyze_package` catches the validation error and re-raises it as
`HTTPException(500, "Analysis failed: " + str(e))`. -/
theorem analyze_package_missing_path (analysis_id : String) (now : Nat)
    (node_path cli_path packagePath analysisType : String)
    (includeRecommendations : Bool) (ts : MainTasks) :
    analyze_package false analysis_id now node_path cli_path packagePath
        analysisType includeRecommendations ts =
      (.httpError 500 "Analysis failed: 400: Package path does not exist",
        ts, false) := by
  rfl

/-- C8 counterexample: the task id `t9` is absent from the (empty) task
store and the cache holds an unexpired entry for it (the lookup at time 5
returns it, its expiry being 100) — yet the endpoint answers 404 instead of
a completed status carrying the cached result, because the source tests the
cached value with Python truthiness and the stored payload is an empty
dict. -/
theorem get_generation_status_unexpired_entry_404 :
    cacheGet [("package:t9", ([] : Payload), 100)] 5
        (String.append "package:" "t9") = some [] ∧
    get_generation_status 5 [] [("package:t9", ([] : Payload), 100)] "t9" =
      .notFound :=
  ⟨rfl, rfl⟩

/-- C8 amended: for a task id absent from the generation task store, the
status endpoint consults the result cache: an unexpired cached entry with a
non-empty payload is returned as a completed status carrying that payload;
an absent entry, an entry with an empty payload, and (since the cache lookup
never yields an expired entry) an expired entry all produce the 404
response. -/
theorem get_generation_status_cache_fallback (now : Nat) (ts : GenTasks)
    (c : Cache) (task_id : String)
    (habs : lookupRec ts task_id = none) :
    (∀ v : Payload,
        cacheGet c now (String.append "package:" task_id) = some v → v ≠ [] →
        get_generation_status now ts c task_id =
          .ok { task_id := task_id, status := "completed", progress := 100,
                stage := "done", message := none, result := some v,
                error := none, created_at := now, updated_at := now }) ∧
    (cacheGet c now (String.append "package:" task_id) = none →
        get_generation_status now ts c task_id = .notFound) ∧
    (cacheGet c now (String.append "package:" task_id) = some [] →
        get_generation_status now ts c task_id = .notFound) ∧
    (∀ (v : Payload) (exp : Nat),
        cacheEntry c (String.append "package:" task_id) = some (v, exp) →
        exp ≤ now →
        get_generation_status now ts c task_id = .notFound) := by
  refine ⟨?_, ?_, ?_, ?_⟩
  · intro v hv hne
    unfold get_generation_status
    rw [habs, hv]
    simp [hne]
  · intro hv
    unfold get_generation_status
    rw [habs, hv]
  · intro hv
    unfold get_generation_status
    rw [habs, hv]
    simp
  · intro v exp hent hexp
    have hnone := cacheGet_of_expired c now (String.append "package:" task_id)
      v exp hent (by omega)
    unfold get_generation_status
    rw [habs, hnone]

/-- Witness for `get_generation_status_cache_fallback`: a concrete store
miss with a concrete unexpired non-empty cache entry yields the completed
response carrying it. -/
theorem get_generation_status_cache_fallback_witness :
    get_generation_status 5 [] [("package:t9", [("files", "f.js")], 100)]
        "t9" =
      .ok { task_id := "t9", status := "completed", progress := 100,
            stage := "done", message := none,
            result := some [("files", "f.js")], error := none,
            created_at := 5, updated_at := 5 } :=
  (get_generation_status_cache_fallback 5 []
      [("package:t9", [("files", "f.js")], 100)] "t9" rfl).1
    [("files", "f.js")] rfl (by decide)

theorem router_final_success (ts1 ts2 ts3 ts4 ts5 ts6 : GenTasks)
    (c : Cache) (ts0 : GenTasks) (task_id : String) (r : GenerationStatus)
    (h : lookupRec ts6 task_id = some r) :
    lookupRec (finalTasks ⟨[ts1, ts2, ts3, ts4, ts5, ts6], c, none⟩ ts0)
      task_id = some r := by
  simpa [finalTasks] using h

theorem genFail_final (now : Nat) (task_id e : String) (ts : GenTasks)
    (hist : List GenTasks) (c : Cache) (ts0 : GenTasks)
    (t : GenerationStatus) (h : lookupRec ts task_id = some t) :
    (genFail now task_id e ts hist c).uncaught = none ∧
    lookupRec (finalTasks (genFail now task_id e ts hist c) ts0) task_id =
      some { t with
        status := "failed", progress := t.progress, stage := t.stage,
        message := none, result := none, error := some e,
        updated_at := now } := by
  unfold genFail finalTasks
  rw [h]
  refine ⟨rfl, ?_⟩
  have hlast :
      (hist ++ [update_task_status ts now task_id "failed" t.progress t.stage
        none none (some e)]).getLastD ts0 =
      update_task_status ts now task_id "failed" t.progress t.stage
        none none (some e) := by
    simp
  rw [hlast]
  exact lookupRec_update_task_status ts now task_id "failed" t.progress
    t.stage none none (some e) t h

/-- C7 counterexample: `generator = PackageGeneratorService()` and
`ai_service = AIService()` (generate.py lines 79-80) run before the `try`
block, so when the first constructor raises, the exception escapes the
background run uncaught, no update is ever issued, and the seeded record is
left in the non-terminal status `pending` forever. -/
theorem background_run_nonterminal_cex :
    (generate_package_async
        ⟨Except.error "ImportError: PackageGeneratorService raised",
          Except.ok (), Except.ok (), Except.ok (), Except.ok (),
          Except.ok [("a", "b")], none⟩
        true 1 "t1" [("t1", seedTask "t1" 0)] []).uncaught =
      some "ImportError: PackageGeneratorService raised" ∧
    (generate_package_async
        ⟨Except.error "ImportError: PackageGeneratorService raised",
          Except.ok (), Except.ok (), Except.ok (), Except.ok (),
          Except.ok [("a", "b")], none⟩
        true 1 "t1" [("t1", seedTask "t1" 0)] []).hist = [] ∧
    lookupRec (finalTasks (generate_package_async
        ⟨Except.error "ImportError: PackageGeneratorService raised",
          Except.ok (), Except.ok (), Except.ok (), Except.ok (),
          Except.ok [("a", "b")], none⟩
        true 1 "t1" [("t1", seedTask "t1" 0)] [])
      [("t1", seedTask "t1" 0)]) "t1" = some (seedTask "t1" 0) ∧
    (seedTask "t1" 0).status = "pending" := by
  exact ⟨rfl, rfl, by decide, rfl⟩

/-- C7 amended: when the two service-constructor calls succeed, every
background run (the router's `generate_package_async` and main.py's
`run_generation_task`) on a store containing its task id finishes with that
task in a terminal state and no exception escapes the run: any exception
raised inside the `try` block is caught by the catch-all handler and
converted into a `failed` update recording its description. When either
constructor raises — the two calls execute before the `try` block — the
exception escapes the run uncaught and the store is left untouched, the
record still non-terminal. -/
theorem background_runs_terminate :
    (∀ (env : GenEnv) (enable_testing : Bool) (now : Nat) (task_id : String)
        (ts0 : GenTasks) (c0 : Cache) (t0 : GenerationStatus),
        lookupRec ts0 task_id = some t0 →
        env.generator = Except.ok () → env.ai_service = Except.ok () →
        (generate_package_async env enable_testing now task_id ts0 c0).uncaught
            = none ∧
        ∃ t, lookupRec
            (finalTasks (generate_package_async env enable_testing now task_id
              ts0 c0) ts0) task_id = some t ∧
          (t.status = "completed" ∨ t.status = "failed")) ∧
    (∀ (e : String) (eai ea eg egt : Except String Unit)
        (ecp : Except String Payload) (ecs : Option String)
        (enable_testing : Bool) (now : Nat) (task_id : String)
        (ts0 : GenTasks) (c0 : Cache),
        generate_package_async ⟨Except.error e, eai, ea, eg, egt, ecp, ecs⟩
          enable_testing now task_id ts0 c0 =
          { hist := [], cache := c0, uncaught := some e }) ∧
    (∀ (e : String) (ea eg egt : Except String Unit)
        (ecp : Except String Payload) (ecs : Option String)
        (enable_testing : Bool) (now : Nat) (task_id : String)
        (ts0 : GenTasks) (c0 : Cache),
        generate_package_async
          ⟨Except.ok (), Except.error e, ea, eg, egt, ecp, ecs⟩
          enable_testing now task_id ts0 c0 =
          { hist := [], cache := c0, uncaught := some e }) ∧
    (∀ (renv : RunEnv) (now : Nat) (generation_id output_dir : String)
        (ts0 : MainTasks) (t0 : MainTask),
        lookupRec ts0 generation_id = some t0 →
        (run_generation_task renv now generation_id output_dir ts0).uncaught
            = none ∧
        ∃ t, lookupRec
            (mainFinalTasks (run_generation_task renv now generation_id
              output_dir ts0) ts0) generation_id = some t ∧
          (t.status = "completed" ∨ t.status = "failed")) := by
  refine ⟨?_, ?_, ?_, ?_⟩
  · intro env enable_testing now task_id ts0 c0 t0 h0 hgen hai
    obtain ⟨egen, eai, ea, eg, etst, ecp, ecs⟩ := env
    have hgen2 : egen = Except.ok () := hgen
    have hai2 : eai = Except.ok () := hai
    subst hgen2
    subst hai2
    have h1 := lookupRec_update_task_status ts0 now task_id "in_progress" 10
      "analyzing_requirements" none none none t0 h0
    cases ea with
    | error e =>
        simp only [generate_package_async]
        refine ⟨?_, ?_⟩
        · exact (genFail_final now task_id e _ _ c0 ts0 _ h1).1
        · exact ⟨_, (genFail_final now task_id e _ _ c0 ts0 _ h1).2,
            Or.inr rfl⟩
    | ok _ =>
      have h2 := lookupRec_update_task_status _ now task_id "in_progress" 30
        "generating_structure" none none none _ h1
      have h3 := lookupRec_update_task_status _ now task_id "in_progress" 50
        "generating_code" none none none _ h2
      cases eg with
      | error e =>
          simp only [generate_package_async]
          refine ⟨?_, ?_⟩
          · exact (genFail_final now task_id e _ _ c0 ts0 _ h3).1
          · exact ⟨_, (genFail_final now task_id e _ _ c0 ts0 _ h3).2,
              Or.inr rfl⟩
      | ok _ =>
        have h4 := lookupRec_update_task_status _ now task_id "in_progress" 70
          "generating_tests" none none none _ h3
        cases htest : (if enable_testing then etst else Except.ok ()) with
        | error e =>
            simp only [generate_package_async, htest]
            refine ⟨?_, ?_⟩
            · exact (genFail_final now task_id e _ _ c0 ts0 _ h4).1
            · exact ⟨_, (genFail_final now task_id e _ _ c0 ts0 _ h4).2,
                Or.inr rfl⟩
        | ok _ =>
          have h5 := lookupRec_update_task_status _ now task_id "in_progress"
            90 "finalizing_package" none none none _ h4
          cases ecp with
          | error e =>
              simp only [generate_package_async, htest]
              refine ⟨?_, ?_⟩
              · exact (genFail_final now task_id e _ _ c0 ts0 _ h5).1
              · exact ⟨_, (genFail_final now task_id e _ _ c0 ts0 _ h5).2,
                  Or.inr rfl⟩
          | ok result =>
            have h6 := lookupRec_update_task_status _ now task_id "completed"
              100 "done" none (some result) none _ h5
            cases ecs with
            | some e =>
                simp only [generate_package_async, htest]
                refine ⟨?_, ?_⟩
                · exact (genFail_final now task_id e _ _ c0 ts0 _ h6).1
                · exact ⟨_, (genFail_final now task_id e _ _ c0 ts0 _ h6).2,
                    Or.inr rfl⟩
            | none =>
                simp only [generate_package_async, htest]
                refine ⟨?_, ?_⟩
                · trivial
                · exact ⟨_, by simpa [finalTasks] using h6, Or.inl rfl⟩
  · intro e eai ea eg egt ecp ecs enable_testing now task_id ts0 c0
    rfl
  · intro e ea eg egt ecp ecs enable_testing now task_id ts0 c0
    rfl
  · intro renv now generation_id output_dir ts0 t0 h0
    obtain ⟨launch, ode, fls, wexn⟩ := renv
    cases launch with
    | launchFailed e =>
        have hfin : lookupRec (mainFinalTasks
            (run_generation_task ⟨.launchFailed e, ode, fls, wexn⟩ now
              generation_id output_dir ts0) ts0) generation_id =
            some { t0 with
              status := "failed", completed_at := some now,
              result := some { success := false, stdout := "", stderr := e, returncode := -1 },
              output_dir := some output_dir } := by
          simp [run_generation_task, run_node_command, mainFinalTasks, h0,
            lookupRec_setRec_self]
        refine ⟨?_, ?_⟩
        · simp [run_generation_task, run_node_command, h0]
        · exact ⟨_, hfin, Or.inr rfl⟩
    | launched rc out err =>
        by_cases hrc : rc = 0
        · subst hrc
          cases wexn with
          | some e =>
              have hfin : lookupRec (mainFinalTasks
                  (run_generation_task ⟨.launched 0 out err, ode, fls, some e⟩
                    now generation_id output_dir ts0) ts0) generation_id =
                  some { t0 with
                    status := "failed", completed_at := some now,
                    result := some { success := true, stdout := out, stderr := err, returncode := 0 },
                    output_dir := some output_dir, error := some e } := by
                simp [run_generation_task, run_node_command, mainFinalTasks,
                  h0, lookupRec_setRec_self]
              refine ⟨?_, ?_⟩
              · simp [run_generation_task, run_node_command, h0]
              · exact ⟨_, hfin, Or.inr rfl⟩
          | none =>
              have hfin : lookupRec (mainFinalTasks
                  (run_generation_task ⟨.launched 0 out err, ode, fls, none⟩
                    now generation_id output_dir ts0) ts0) generation_id =
                  some { t0 with
                    status := "completed", completed_at := some now,
                    result := some { success := true, stdout := out, stderr := err, returncode := 0 },
                    output_dir := some output_dir,
                    files := some (if ode then fls else []) } := by
                simp [run_generation_task, run_node_command, mainFinalTasks,
                  h0, lookupRec_setRec_self]
              refine ⟨?_, ?_⟩
              · simp [run_generation_task, run_node_command, h0]
              · exact ⟨_, hfin, Or.inl rfl⟩
        · have hfin : lookupRec (mainFinalTasks
              (run_generation_task ⟨.launched rc out err, ode, fls, wexn⟩
                now generation_id output_dir ts0) ts0) generation_id =
              some { t0 with
                status := "failed", completed_at := some now,
                result := some { success := false, stdout := out, stderr := err, returncode := rc },
                output_dir := some output_dir } := by
            simp [run_generation_task, run_node_command, mainFinalTasks, h0,
              lookupRec_setRec_self, hrc]
          refine ⟨?_, ?_⟩
          · simp [run_generation_task, run_node_command, h0, hrc]
          · exact ⟨_, hfin, Or.inr rfl⟩

/-- Witness for `background_runs_terminate`: a fully successful router run
(constructors succeeding) on a concrete seeded store, and a main.py run
whose subprocess could not be launched, both ending terminal with nothing
escaping. -/
theorem background_runs_terminate_witness :
    ((generate_package_async
        ⟨Except.ok (), Except.ok (), Except.ok (), Except.ok (),
          Except.ok (), Except.ok [("a", "b")], none⟩ true 1 "t1"
        [("t1", seedTask "t1" 0)] []).uncaught = none ∧
      ∃ t, lookupRec (finalTasks (generate_package_async
          ⟨Except.ok (), Except.ok (), Except.ok (), Except.ok (),
            Except.ok (), Except.ok [("a", "b")], none⟩ true 1 "t1"
          [("t1", seedTask "t1" 0)] [])
          [("t1", seedTask "t1" 0)]) "t1" = some t ∧
        (t.status = "completed" ∨ t.status = "failed")) ∧
    ((run_generation_task
        ⟨.launchFailed "FileNotFoundError: no such file", true, [], none⟩ 2
        "g1" "/out" [("g1", mainSeed "g1" 0 ["missing"])]).uncaught = none ∧
      ∃ t, lookupRec (mainFinalTasks (run_generation_task
          ⟨.launchFailed "FileNotFoundError: no such file", true, [], none⟩ 2
          "g1" "/out" [("g1", mainSeed "g1" 0 ["missing"])])
          [("g1", mainSeed "g1" 0 ["missing"])]) "g1" = some t ∧
        (t.status = "completed" ∨ t.status = "failed")) :=
  ⟨background_runs_terminate.1
      ⟨Except.ok (), Except.ok (), Except.ok (), Except.ok (), Except.ok (),
        Except.ok [("a", "b")], none⟩
      true 1 "t1" [("t1", seedTask "t1" 0)] [] (seedTask "t1" 0) (by decide)
      rfl rfl,
    background_runs_terminate.2.2.2
      ⟨.launchFailed "FileNotFoundError: no such file", true, [], none⟩ 2
      "g1" "/out" [("g1", mainSeed "g1" 0 ["missing"])]
      (mainSeed "g1" 0 ["missing"]) (by decide)⟩

theorem recTrace_genFail (now : Nat) (task_id e : String) (ts : GenTasks)
    (hist : List GenTasks) (c : Cache) (t : GenerationStatus)
    (h : lookupRec ts task_id = some t) :
    recTrace (genFail now task_id e ts hist c).hist task_id =
      recTrace hist task_id ++ [("failed", t.progress, t.stage)] := by
  unfold genFail
  rw [h]
  have hF := lookupRec_update_task_status ts now task_id "failed" t.progress
    t.stage none none (some e) t h
  simp [recTrace, hF]

/-- For a store containing the task, the run's observable snapshots are
exactly the literal trace determined by the collaborator outcomes. -/
theorem recTrace_generate_package_async (env : GenEnv) (enable_testing : Bool)
    (now : Nat) (task_id : String) (ts0 : GenTasks) (c0 : Cache)
    (t0 : GenerationStatus) (h0 : lookupRec ts0 task_id = some t0) :
    recTrace (generate_package_async env enable_testing now task_id ts0
      c0).hist task_id = expectedTrace env enable_testing := by
  obtain ⟨egen, eai, ea, eg, etst, ecp, ecs⟩ := env
  cases egen with
  | error e => simp [generate_package_async, expectedTrace, recTrace]
  | ok u =>
  cases eai with
  | error e => simp [generate_package_async, expectedTrace, recTrace]
  | ok u2 =>
  have h1 := lookupRec_update_task_status ts0 now task_id "in_progress" 10
    "analyzing_requirements" none none none t0 h0
  cases ea with
  | error e =>
      simp only [generate_package_async, expectedTrace]
      rw [recTrace_genFail now task_id e _ _ c0 _ h1]
      simp [recTrace, h1]
  | ok _ =>
    have h2 := lookupRec_update_task_status _ now task_id "in_progress" 30
      "generating_structure" none none none _ h1
    have h3 := lookupRec_update_task_status _ now task_id "in_progress" 50
      "generating_code" none none none _ h2
    cases eg with
    | error e =>
        simp only [generate_package_async, expectedTrace]
        rw [recTrace_genFail now task_id e _ _ c0 _ h3]
        simp [recTrace, h1, h2, h3]
    | ok _ =>
      have h4 := lookupRec_update_task_status _ now task_id "in_progress" 70
        "generating_tests" none none none _ h3
      cases htest : (if enable_testing then etst else Except.ok ()) with
      | error e =>
          simp only [generate_package_async, expectedTrace, htest]
          rw [recTrace_genFail now task_id e _ _ c0 _ h4]
          simp [recTrace, h1, h2, h3, h4]
      | ok _ =>
        have h5 := lookupRec_update_task_status _ now task_id "in_progress"
          90 "finalizing_package" none none none _ h4
        cases ecp with
        | error e =>
            simp only [generate_package_async, expectedTrace, htest]
            rw [recTrace_genFail now task_id e _ _ c0 _ h5]
            simp [recTrace, h1, h2, h3, h4, h5]
        | ok result =>
          have h6 := lookupRec_update_task_status _ now task_id "completed"
            100 "done" none (some result) none _ h5
          cases ecs with
          | some e =>
              simp only [generate_package_async, expectedTrace, htest]
              rw [recTrace_genFail now task_id e _ _ c0 _ h6]
              simp [recTrace, h1, h2, h3, h4, h5, h6]
          | none =>
              simp only [generate_package_async, expectedTrace, htest]
              simp [recTrace, h1, h2, h3, h4, h5, h6]

/-- For a store containing the task, a `run_generation_task` run's status
snapshots are exactly the ones determined by the environment. -/
theorem mainStatusTrace_run (renv : RunEnv) (now : Nat)
    (generation_id output_dir : String) (ts0 : MainTasks) (t0 : MainTask)
    (h0 : lookupRec ts0 generation_id = some t0) :
    mainStatusTrace (run_generation_task renv now generation_id output_dir
      ts0).hist generation_id = expectedMainStatuses renv := by
  obtain ⟨launch, ode, fls, wexn⟩ := renv
  cases launch with
  | launchFailed e =>
      simp [run_generation_task, run_node_command, mainStatusTrace,
        lookupRec_setRec_self, h0, expectedMainStatuses]
  | launched rc out err =>
      by_cases hrc : rc = 0
      · subst hrc
        cases wexn with
        | some e =>
            simp [run_generation_task, run_node_command, mainStatusTrace,
              lookupRec_setRec_self, h0, expectedMainStatuses]
        | none =>
            simp [run_generation_task, run_node_command, mainStatusTrace,
              lookupRec_setRec_self, h0, expectedMainStatuses]
      · simp [run_generation_task, run_node_command, mainStatusTrace,
          lookupRec_setRec_self, h0, expectedMainStatuses, hrc]

/-- C1 counterexample: a run of the router's `generate_package_async` in
which every generation phase succeeds but the post-completion result-cache
write raises. The task, seeded `pending`, is observed with status
`in_progress` — a value outside the claimed set, which contains `running`
instead — and the terminal status `completed` is then overwritten with
`failed` by the catch-all handler, leaving the terminal state `completed`. -/
theorem task_status_machine_cex :
    (recTrace (generate_package_async
        ⟨Except.ok (), Except.ok (), Except.ok (), Except.ok (),
          Except.ok (), Except.ok [("path", "/tmp/p")],
          some "cache backend unavailable"⟩
        true 1 "t1" [("t1", seedTask "t1" 0)] []).hist "t1").map Prod.fst =
      ["in_progress", "in_progress", "in_progress", "in_progress",
        "in_progress", "completed", "failed"] ∧
    "in_progress" ∉ (["pending", "running", "completed", "failed"] :
      List String) := by
  exact ⟨by decide, by decide⟩

/-- C1 amended: router task statuses range over pending, in_progress,
completed and failed (the source uses `in_progress`, not `running`, for the
active phase), and transitions follow
pending → in_progress → (completed | failed), except that a completed task
is moved to failed when the post-completion result-cache write raises;
main.py generation records are seeded `running` and move to completed or
failed, a completed record being re-written completed (file list) or moved
to failed when post-success file collection raises. In both stores a
terminal status is never followed by a non-terminal one. -/
theorem task_status_machine :
    (∀ (env : GenEnv) (enable_testing : Bool) (now : Nat) (task_id : String)
        (ts0 : GenTasks) (c0 : Cache) (t0 : GenerationStatus),
        lookupRec ts0 task_id = some t0 → t0.status = "pending" →
        (∀ s ∈ t0.status :: (recTrace (generate_package_async env
            enable_testing now task_id ts0 c0).hist task_id).map Prod.fst,
          s ∈ (["pending", "in_progress", "completed", "failed"] :
            List String)) ∧
        List.Chain' (fun a b => routerStep a b = true)
          (t0.status :: (recTrace (generate_package_async env enable_testing
            now task_id ts0 c0).hist task_id).map Prod.fst) ∧
        List.Chain' (fun a b => noRegress a b = true)
          (t0.status :: (recTrace (generate_package_async env enable_testing
            now task_id ts0 c0).hist task_id).map Prod.fst)) ∧
    (∀ (renv : RunEnv) (now : Nat) (generation_id output_dir : String)
        (ts0 : MainTasks) (t0 : MainTask),
        lookupRec ts0 generation_id = some t0 → t0.status = "running" →
        (∀ s ∈ t0.status :: mainStatusTrace (run_generation_task renv now
            generation_id output_dir ts0).hist generation_id,
          s ∈ (["running", "completed", "failed"] : List String)) ∧
        List.Chain' (fun a b => mainStep a b = true)
          (t0.status :: mainStatusTrace (run_generation_task renv now
            generation_id output_dir ts0).hist generation_id) ∧
        List.Chain' (fun a b => noRegress a b = true)
          (t0.status :: mainStatusTrace (run_generation_task renv now
            generation_id output_dir ts0).hist generation_id)) := by
  constructor
  · intro env enable_testing now task_id ts0 c0 t0 h0 hst
    rw [recTrace_generate_package_async env enable_testing now task_id ts0 c0
      t0 h0, hst]
    obtain ⟨egen, eai, ea, eg, etst, ecp, ecs⟩ := env
    cases egen <;> cases eai <;> cases ea <;> cases eg <;>
      rcases htest : (if enable_testing then etst else Except.ok ()) with e | u <;>
      cases ecp <;> cases ecs <;>
      simp only [expectedTrace, htest] <;> refine ⟨?_, ?_, ?_⟩ <;>
      simp [routerStep, noRegress]
  · intro renv now generation_id output_dir ts0 t0 h0 hst
    rw [mainStatusTrace_run renv now generation_id output_dir ts0 t0 h0, hst]
    obtain ⟨launch, ode, fls, wexn⟩ := renv
    cases launch with
    | launchFailed e =>
        simp only [expectedMainStatuses]
        refine ⟨?_, ?_, ?_⟩ <;> simp [mainStep, noRegress]
    | launched rc out err =>
        by_cases hrc : rc = 0
        · subst hrc
          cases wexn <;> simp only [expectedMainStatuses] <;>
            refine ⟨?_, ?_, ?_⟩ <;> simp [mainStep, noRegress]
        · simp only [expectedMainStatuses, if_neg hrc]
          refine ⟨?_, ?_, ?_⟩ <;> simp [mainStep, noRegress]

/-- Witness for `task_status_machine`: both parts applied to concrete seeded
stores and fully successful environments. -/
theorem task_status_machine_witness :
    ((∀ s ∈ "pending" :: (recTrace (generate_package_async
        ⟨Except.ok (), Except.ok (), Except.ok (), Except.ok (),
          Except.ok (), Except.ok [("a", "b")], none⟩ true 1 "t1"
        [("t1", seedTask "t1" 0)] []).hist "t1").map
          Prod.fst,
      s ∈ (["pending", "in_progress", "completed", "failed"] :
        List String)) ∧
    List.Chain' (fun a b => routerStep a b = true)
      ("pending" :: (recTrace (generate_package_async
        ⟨Except.ok (), Except.ok (), Except.ok (), Except.ok (),
          Except.ok (), Except.ok [("a", "b")], none⟩ true 1 "t1"
        [("t1", seedTask "t1" 0)] []).hist "t1").map
          Prod.fst) ∧
    List.Chain' (fun a b => noRegress a b = true)
      ("pending" :: (recTrace (generate_package_async
        ⟨Except.ok (), Except.ok (), Except.ok (), Except.ok (),
          Except.ok (), Except.ok [("a", "b")], none⟩ true 1 "t1"
        [("t1", seedTask "t1" 0)] []).hist "t1").map
          Prod.fst)) ∧
    ((∀ s ∈ "running" :: mainStatusTrace (run_generation_task
        ⟨.launched 0 "out" "", true, ["f.js"], none⟩ 2 "g1" "/out"
          [("g1", mainSeed "g1" 0 ["node"])]).hist "g1",
      s ∈ (["running", "completed", "failed"] : List String)) ∧
    List.Chain' (fun a b => mainStep a b = true)
      ("running" :: mainStatusTrace (run_generation_task
        ⟨.launched 0 "out" "", true, ["f.js"], none⟩ 2 "g1" "/out"
          [("g1", mainSeed "g1" 0 ["node"])]).hist "g1") ∧
    List.Chain' (fun a b => noRegress a b = true)
      ("running" :: mainStatusTrace (run_generation_task
        ⟨.launched 0 "out" "", true, ["f.js"], none⟩ 2 "g1" "/out"
          [("g1", mainSeed "g1" 0 ["node"])]).hist "g1")) :=
  ⟨task_status_machine.1
      ⟨Except.ok (), Except.ok (), Except.ok (), Except.ok (), Except.ok (),
        Except.ok [("a", "b")], none⟩
      true 1 "t1" [("t1", seedTask "t1" 0)] [] (seedTask "t1" 0)
      (by decide) rfl,
    task_status_machine.2 ⟨.launched 0 "out" "", true, ["f.js"], none⟩ 2 "g1"
      "/out" [("g1", mainSeed "g1" 0 ["node"])] (mainSeed "g1" 0 ["node"])
      (by decide) rfl⟩

/-- C6: across any router run on a store containing the task (seeded with
progress 0), every observed progress value is an integer between 0 and 100,
the progress snapshots are monotonically non-decreasing across the successive
status updates, and every update that sets status `failed` carries exactly
the progress and stage of the snapshot preceding it — the transition to
failed preserves the progress and stage reached so far. -/
theorem progress_monotone (env : GenEnv) (enable_testing : Bool) (now : Nat)
    (task_id : String) (ts0 : GenTasks) (c0 : Cache)
    (t0 : GenerationStatus) (h0 : lookupRec ts0 task_id = some t0)
    (hp : t0.progress = 0) :
    (∀ x ∈ (t0.status, t0.progress, t0.stage) ::
        recTrace (generate_package_async env enable_testing now task_id ts0
          c0).hist task_id,
      0 ≤ x.2.1 ∧ x.2.1 ≤ 100) ∧
    List.Chain' (fun x y => x.2.1 ≤ y.2.1)
      ((t0.status, t0.progress, t0.stage) ::
        recTrace (generate_package_async env enable_testing now task_id ts0
          c0).hist task_id) ∧
    List.Chain' (fun x y => y.1 = "failed" → y.2.1 = x.2.1 ∧ y.2.2 = x.2.2)
      ((t0.status, t0.progress, t0.stage) ::
        recTrace (generate_package_async env enable_testing now task_id ts0
          c0).hist task_id) := by
  rw [recTrace_generate_package_async env enable_testing now task_id ts0 c0
    t0 h0, hp]
  obtain ⟨egen, eai, ea, eg, etst, ecp, ecs⟩ := env
  cases egen <;> cases eai <;> cases ea <;> cases eg <;>
    rcases htest : (if enable_testing then etst else Except.ok ()) with e | u <;>
    cases ecp <;> cases ecs <;>
    simp only [expectedTrace, htest] <;> refine ⟨?_, ?_, ?_⟩ <;>
    simp

/-- Witness for `progress_monotone`: a concrete seeded store and an
environment whose `create_package` phase raises, so the failure update's
preservation of progress 90 and stage `finalizing_package` is exercised. -/
theorem progress_monotone_witness :
    (∀ x ∈ (("pending", 0, "initialization") : String × Int × String) ::
        recTrace (generate_package_async
          ⟨Except.ok (), Except.ok (), Except.ok (), Except.ok (),
            Except.ok (), Except.error "disk full", none⟩ true 1 "t1"
          [("t1", seedTask "t1" 0)] []).hist "t1",
      0 ≤ x.2.1 ∧ x.2.1 ≤ 100) ∧
    List.Chain' (fun x y => x.2.1 ≤ y.2.1)
      ((("pending", 0, "initialization") : String × Int × String) ::
        recTrace (generate_package_async
          ⟨Except.ok (), Except.ok (), Except.ok (), Except.ok (),
            Except.ok (), Except.error "disk full", none⟩ true 1 "t1"
          [("t1", seedTask "t1" 0)] []).hist "t1") ∧
    List.Chain' (fun x y => y.1 = "failed" → y.2.1 = x.2.1 ∧ y.2.2 = x.2.2)
      ((("pending", 0, "initialization") : String × Int × String) ::
        recTrace (generate_package_async
          ⟨Except.ok (), Except.ok (), Except.ok (), Except.ok (),
            Except.ok (), Except.error "disk full", none⟩ true 1 "t1"
          [("t1", seedTask "t1" 0)] []).hist "t1") :=
  progress_monotone
    ⟨Except.ok (), Except.ok (), Except.ok (), Except.ok (), Except.ok (),
      Except.error "disk full", none⟩ true 1 "t1"
    [("t1", seedTask "t1" 0)] [] (seedTask "t1" 0)
    (by decide) rfl

/-- C3 counterexample: a main.py generation task whose subprocess exits with
code 1 ends with status `failed`, yet its `error` key is never set and the
whole subprocess outcome (including the captured stderr) sits under
`result` — so a failed task has `result` populated and `error` absent,
contradicting the claimed exactly-one split. -/
theorem terminal_fields_cex :
    Option.map MainTask.status (lookupRec (mainFinalTasks
      (run_generation_task
        ⟨LaunchOutcome.launched 1 "" "npm ERR! exit 1", true, [], none⟩ 5
        "g1" "/out" [("g1", mainSeed "g1" 3 ["node", "cli.js", "generate"])])
      [("g1", mainSeed "g1" 3 ["node", "cli.js", "generate"])]) "g1") =
      some "failed" ∧
    Option.map MainTask.error (lookupRec (mainFinalTasks
      (run_generation_task
        ⟨LaunchOutcome.launched 1 "" "npm ERR! exit 1", true, [], none⟩ 5
        "g1" "/out" [("g1", mainSeed "g1" 3 ["node", "cli.js", "generate"])])
      [("g1", mainSeed "g1" 3 ["node", "cli.js", "generate"])]) "g1") =
      some none ∧
    Option.map MainTask.result (lookupRec (mainFinalTasks
      (run_generation_task
        ⟨LaunchOutcome.launched 1 "" "npm ERR! exit 1", true, [], none⟩ 5
        "g1" "/out" [("g1", mainSeed "g1" 3 ["node", "cli.js", "generate"])])
      [("g1", mainSeed "g1" 3 ["node", "cli.js", "generate"])]) "g1") =
      some (some { success := false, stdout := "", stderr := "npm ERR! exit 1", returncode := 1 }) := by
  exact ⟨by decide, by decide, by decide⟩

/-- C3 amended: in the router's store, exactly one of result/error is
populated once a task is terminal — result (and no error) when completed,
error (and no result) when failed; a run whose service constructor raises
before the `try` block writes nothing, leaving the seeded record `pending`,
for which the invariant holds vacuously. In main.py's generation store every
terminal record carries the subprocess outcome under `result`; the record
ends completed with no error when the subprocess succeeds and file
collection does not raise, ends failed with the file-collection exception
under `error` (result still populated) when it does raise, and ends failed
with `error` still absent when the subprocess itself reports failure. -/
theorem terminal_result_error_fields :
    (∀ (env : GenEnv) (enable_testing : Bool) (now : Nat) (task_id : String)
        (ts0 : GenTasks) (c0 : Cache) (t0 : GenerationStatus),
        lookupRec ts0 task_id = some t0 → t0.status = "pending" →
        ∃ t, lookupRec (finalTasks (generate_package_async env enable_testing
            now task_id ts0 c0) ts0) task_id = some t ∧
          (t.status = "completed" → t.result.isSome ∧ t.error = none) ∧
          (t.status = "failed" → t.error.isSome ∧ t.result = none)) ∧
    (∀ (renv : RunEnv) (now : Nat) (generation_id output_dir : String)
        (ts0 : MainTasks) (t0 : MainTask),
        lookupRec ts0 generation_id = some t0 → t0.error = none →
        ∃ t, lookupRec (mainFinalTasks (run_generation_task renv now
            generation_id output_dir ts0) ts0) generation_id = some t ∧
          (t.status = "completed" ∨ t.status = "failed") ∧ t.result.isSome ∧
          ((run_node_command renv.launch).success = true →
            renv.walkExn = none → t.status = "completed" ∧ t.error = none) ∧
          (∀ e, (run_node_command renv.launch).success = true →
            renv.walkExn = some e → t.status = "failed" ∧ t.error = some e) ∧
          ((run_node_command renv.launch).success = false →
            t.status = "failed" ∧ t.error = none)) := by
  constructor
  · intro env enable_testing now task_id ts0 c0 t0 h0 hpend
    obtain ⟨egen, eai, ea, eg, etst, ecp, ecs⟩ := env
    cases egen with
    | error e =>
        simp only [generate_package_async]
        exact ⟨_, h0, fun hc => by simp [hpend] at hc,
          fun hf => by simp [hpend] at hf⟩
    | ok u =>
    cases eai with
    | error e =>
        simp only [generate_package_async]
        exact ⟨_, h0, fun hc => by simp [hpend] at hc,
          fun hf => by simp [hpend] at hf⟩
    | ok u2 =>
    have h1 := lookupRec_update_task_status ts0 now task_id "in_progress" 10
      "analyzing_requirements" none none none t0 h0
    cases ea with
    | error e =>
        simp only [generate_package_async]
        exact ⟨_, (genFail_final now task_id e _ _ c0 ts0 _ h1).2,
          fun hc => absurd hc (by simp), fun _ => ⟨rfl, rfl⟩⟩
    | ok _ =>
      have h2 := lookupRec_update_task_status _ now task_id "in_progress" 30
        "generating_structure" none none none _ h1
      have h3 := lookupRec_update_task_status _ now task_id "in_progress" 50
        "generating_code" none none none _ h2
      cases eg with
      | error e =>
          simp only [generate_package_async]
          exact ⟨_, (genFail_final now task_id e _ _ c0 ts0 _ h3).2,
            fun hc => absurd hc (by simp), fun _ => ⟨rfl, rfl⟩⟩
      | ok _ =>
        have h4 := lookupRec_update_task_status _ now task_id "in_progress" 70
          "generating_tests" none none none _ h3
        cases htest : (if enable_testing then etst else Except.ok ()) with
        | error e =>
            simp only [generate_package_async, htest]
            exact ⟨_, (genFail_final now task_id e _ _ c0 ts0 _ h4).2,
              fun hc => absurd hc (by simp), fun _ => ⟨rfl, rfl⟩⟩
        | ok _ =>
          have h5 := lookupRec_update_task_status _ now task_id "in_progress"
            90 "finalizing_package" none none none _ h4
          cases ecp with
          | error e =>
              simp only [generate_package_async, htest]
              exact ⟨_, (genFail_final now task_id e _ _ c0 ts0 _ h5).2,
                fun hc => absurd hc (by simp), fun _ => ⟨rfl, rfl⟩⟩
          | ok result =>
            have h6 := lookupRec_update_task_status _ now task_id "completed"
              100 "done" none (some result) none _ h5
            cases ecs with
            | some e =>
                simp only [generate_package_async, htest]
                exact ⟨_, (genFail_final now task_id e _ _ c0 ts0 _ h6).2,
                  fun hc => absurd hc (by simp), fun _ => ⟨rfl, rfl⟩⟩
            | none =>
                simp only [generate_package_async, htest]
                exact ⟨_, router_final_success _ _ _ _ _ _ _ ts0 task_id _ h6,
                  fun _ => ⟨rfl, rfl⟩, fun hf => absurd hf (by simp)⟩
  · intro renv now generation_id output_dir ts0 t0 h0 herr
    obtain ⟨launch, ode, fls, wexn⟩ := renv
    cases launch with
    | launchFailed e =>
        have hfin : lookupRec (mainFinalTasks
            (run_generation_task ⟨.launchFailed e, ode, fls, wexn⟩ now
              generation_id output_dir ts0) ts0) generation_id =
            some { t0 with
              status := "failed", completed_at := some now,
              result := some { success := false, stdout := "", stderr := e, returncode := -1 },
              output_dir := some output_dir } := by
          simp [run_generation_task, run_node_command, mainFinalTasks, h0,
            lookupRec_setRec_self]
        exact ⟨_, hfin, Or.inr rfl, rfl,
          fun hs => absurd hs (by simp [run_node_command]),
          fun _ hs => absurd hs (by simp [run_node_command]),
          fun _ => ⟨rfl, herr⟩⟩
    | launched rc out err =>
        by_cases hrc : rc = 0
        · subst hrc
          cases wexn with
          | some e =>
              have hfin : lookupRec (mainFinalTasks
                  (run_generation_task ⟨.launched 0 out err, ode, fls, some e⟩
                    now generation_id output_dir ts0) ts0) generation_id =
                  some { t0 with
                    status := "failed", completed_at := some now,
                    result := some { success := true, stdout := out, stderr := err, returncode := 0 },
                    output_dir := some output_dir, error := some e } := by
                simp [run_generation_task, run_node_command, mainFinalTasks,
                  h0, lookupRec_setRec_self]
              exact ⟨_, hfin, Or.inr rfl, rfl,
                fun _ hnone => by simp at hnone,
                fun e2 _ hsome => ⟨rfl, by simpa using hsome⟩,
                fun hs => absurd hs (by simp [run_node_command])⟩
          | none =>
              have hfin : lookupRec (mainFinalTasks
                  (run_generation_task ⟨.launched 0 out err, ode, fls, none⟩
                    now generation_id output_dir ts0) ts0) generation_id =
                  some { t0 with
                    status := "completed", completed_at := some now,
                    result := some { success := true, stdout := out, stderr := err, returncode := 0 },
                    output_dir := some output_dir,
                    files := some (if ode then fls else []) } := by
                simp [run_generation_task, run_node_command, mainFinalTasks,
                  h0, lookupRec_setRec_self]
              exact ⟨_, hfin, Or.inl rfl, rfl,
                fun _ _ => ⟨rfl, herr⟩,
                fun _ _ hsome => by simp at hsome,
                fun hs => absurd hs (by simp [run_node_command])⟩
        · have hfin : lookupRec (mainFinalTasks
              (run_generation_task ⟨.launched rc out err, ode, fls, wexn⟩
                now generation_id output_dir ts0) ts0) generation_id =
              some { t0 with
                status := "failed", completed_at := some now,
                result := some { success := false, stdout := out, stderr := err, returncode := rc },
                output_dir := some output_dir } := by
            simp [run_generation_task, run_node_command, mainFinalTasks, h0,
              lookupRec_setRec_self, hrc]
          have hsf : (run_node_command (.launched rc out err)).success = false := by
            simp [run_node_command, hrc]
          exact ⟨_, hfin, Or.inr rfl, rfl,
            fun hs => absurd (hsf.symm.trans hs) (by simp),
            fun _ hs => absurd (hsf.symm.trans hs) (by simp),
            fun _ => ⟨rfl, herr⟩⟩

/-- Witness for `terminal_result_error_fields`: both parts applied to
concrete seeded stores; the router run fails at code generation (error set,
result absent), the main.py run succeeds (result set, error absent). -/
theorem terminal_result_error_fields_witness :
    (∃ t, lookupRec (finalTasks (generate_package_async
        ⟨Except.ok (), Except.ok (), Except.ok (),
          Except.error "model unavailable", Except.ok (),
          Except.ok [("a", "b")], none⟩ true 1 "t1"
        [("t1", seedTask "t1" 0)] []) [("t1", seedTask "t1" 0)]) "t1" =
        some t ∧
      (t.status = "completed" → t.result.isSome ∧ t.error = none) ∧
      (t.status = "failed" → t.error.isSome ∧ t.result = none)) ∧
    (∃ t, lookupRec (mainFinalTasks (run_generation_task
        ⟨.launched 0 "out" "", true, ["f.js"], none⟩ 2 "g1" "/out"
        [("g1", mainSeed "g1" 0 ["node"])]) [("g1", mainSeed "g1" 0 ["node"])])
        "g1" = some t ∧
      (t.status = "completed" ∨ t.status = "failed") ∧ t.result.isSome ∧
      ((run_node_command (LaunchOutcome.launched 0 "out" "")).success = true →
        (none : Option String) = none →
        t.status = "completed" ∧ t.error = none) ∧
      (∀ e, (run_node_command (LaunchOutcome.launched 0 "out" "")).success = true →
        (none : Option String) = some e → t.status = "failed" ∧ t.error = some e) ∧
      ((run_node_command (LaunchOutcome.launched 0 "out" "")).success = false →
        t.status = "failed" ∧ t.error = none)) :=
  ⟨terminal_result_error_fields.1
      ⟨Except.ok (), Except.ok (), Except.ok (),
        Except.error "model unavailable", Except.ok (),
        Except.ok [("a", "b")], none⟩ true 1 "t1" [("t1", seedTask "t1" 0)]
      [] (seedTask "t1" 0) (by decide) rfl,
    terminal_result_error_fields.2
      ⟨.launched 0 "out" "", true, ["f.js"], none⟩ 2 "g1" "/out"
      [("g1", mainSeed "g1" 0 ["node"])] (mainSeed "g1" 0 ["node"])
      (by decide) rfl⟩

/-- C4 counterexample: the external executable exits with code 2 and stderr
`TypeError: undefined`; the task does reach status `failed`, but its `error`
key is never populated — the captured stderr is only available inside the
stored subprocess result — so the error field does not contain the captured
stderr text. -/
theorem nonzero_exit_error_field_cex :
    Option.map MainTask.status (lookupRec (mainFinalTasks
      (run_generation_task
        ⟨LaunchOutcome.launched 2 "" "TypeError: undefined", false, [], none⟩
        9 "g2" "/out2" [("g2", mainSeed "g2" 4 ["node", "cli.js"])])
      [("g2", mainSeed "g2" 4 ["node", "cli.js"])]) "g2") = some "failed" ∧
    Option.map MainTask.error (lookupRec (mainFinalTasks
      (run_generation_task
        ⟨LaunchOutcome.launched 2 "" "TypeError: undefined", false, [], none⟩
        9 "g2" "/out2" [("g2", mainSeed "g2" 4 ["node", "cli.js"])])
      [("g2", mainSeed "g2" 4 ["node", "cli.js"])]) "g2") = some none ∧
    Option.map MainTask.result (lookupRec (mainFinalTasks
      (run_generation_task
        ⟨LaunchOutcome.launched 2 "" "TypeError: undefined", false, [], none⟩
        9 "g2" "/out2" [("g2", mainSeed "g2" 4 ["node", "cli.js"])])
      [("g2", mainSeed "g2" 4 ["node", "cli.js"])]) "g2") =
      some (some { success := false, stdout := "", stderr := "TypeError: undefined", returncode := 2 }) := by
  exact ⟨by decide, by decide, by decide⟩

/-- C4 amended: for every background generation task whose external
executable exits with a non-zero code, the record reaches status `failed`
and the captured stderr text is stored in the record's `result` field (as
`result.stderr`); the `error` field itself remains unset. -/
theorem nonzero_exit_failed_record (rc : Int) (out err : String) (ode : Bool)
    (fls : List String) (wexn : Option String) (now : Nat)
    (generation_id output_dir : String) (ts0 : MainTasks) (t0 : MainTask)
    (h0 : lookupRec ts0 generation_id = some t0) (herr : t0.error = none)
    (hrc : rc ≠ 0) :
    ∃ t, lookupRec (mainFinalTasks (run_generation_task
        ⟨.launched rc out err, ode, fls, wexn⟩ now generation_id output_dir
        ts0) ts0) generation_id = some t ∧
      t.status = "failed" ∧
      t.result = some { success := false, stdout := out, stderr := err, returncode := rc } ∧
      t.error = none := by
  have hfin : lookupRec (mainFinalTasks
      (run_generation_task ⟨.launched rc out err, ode, fls, wexn⟩
        now generation_id output_dir ts0) ts0) generation_id =
      some { t0 with
        status := "failed", completed_at := some now,
        result := some { success := false, stdout := out, stderr := err, returncode := rc },
        output_dir := some output_dir } := by
    simp [run_generation_task, run_node_command, mainFinalTasks, h0,
      lookupRec_setRec_self, hrc]
  exact ⟨_, hfin, rfl, rfl, herr⟩

/-- Witness for `nonzero_exit_failed_record`: a concrete seeded store and a
subprocess exiting 1 with stderr `npm ERR! build failed`. -/
theorem nonzero_exit_failed_record_witness :
    ∃ t, lookupRec (mainFinalTasks (run_generation_task
        ⟨.launched 1 "" "npm ERR! build failed", true, [], none⟩ 7 "g3"
        "/out3" [("g3", mainSeed "g3" 6 ["node"])])
        [("g3", mainSeed "g3" 6 ["node"])]) "g3" = some t ∧
      t.status = "failed" ∧
      t.result = some { success := false, stdout := "", stderr := "npm ERR! build failed", returncode := 1 } ∧
      t.error = none :=
  nonzero_exit_failed_record 1 "" "npm ERR! build failed" true [] none 7 "g3"
    "/out3" [("g3", mainSeed "g3" 6 ["node"])] (mainSeed "g3" 6 ["node"])
    (by decide) rfl (by decide)

end OpenNodeForge
